import Mathlib

/-!
Verification of the Qt-Creator-MCP-Plugin build pipeline (build_main.py)
against its natural-language specification.

The Python source is shallowly embedded: the pure decision logic of each
function is translated into executable Lean definitions.  External effects
(process table, filesystem, sockets, wall clock) are modelled as explicit
oracle environments consumed by the embedded control flow, and Python
exceptions are modelled with an explicit error type.  Polling loops bounded
by wall-clock time are modelled with a fuel parameter, one unit of fuel per
loop iteration, so that budget exhaustion corresponds to fuel running out.
-/

namespace BuildMain

/-! ## Python-style string primitives

Python substring tests (the `in` operator), `str.lower`, `str.split` and
`int(...)` used by build_main.py are given executable models here. -/

/-- Models that the list `needle` is a leading segment of `hay`
(the head comparison step of a substring scan). -/
def startsWithList : List Char → List Char → Bool
  | _, [] => true
  | [], _ :: _ => false
  | a :: as, b :: bs => (a = b) && startsWithList as bs

/-- Models the Python expression `needle in hay` on the character lists:
true when `needle` occurs contiguously anywhere in `hay`. -/
def hasSubList (needle : List Char) : List Char → Bool
  | [] => startsWithList [] needle
  | c :: rest => startsWithList (c :: rest) needle || hasSubList needle rest

/-- Models the Python membership test `needle in hay` on strings. -/
def pyIn (needle hay : String) : Bool :=
  hasSubList needle.data hay.data

/-- Models Python `str.lower` for the ASCII range used by the scripts. -/
def pyLowerChar (c : Char) : Char :=
  if 65 ≤ c.toNat ∧ c.toNat ≤ 90 then Char.ofNat (c.toNat + 32) else c

/-- Models Python `str.lower` on a whole string. -/
def pyLower (s : String) : String :=
  String.mk (s.data.map pyLowerChar)

/-- The maximal run of decimal digits at the head of a character list,
as matched by a greedy `\d+` at that position. -/
def leadingDigits : List Char → List Char
  | [] => []
  | c :: cs => if c.isDigit then c :: leadingDigits cs else []

/-- Numeric value of a list of decimal digit characters. -/
def natOfDigits (ds : List Char) : Nat :=
  ds.foldl (fun n c => n * 10 + (c.toNat - 48)) 0

/-- Models Python `str.split` with a dot separator on the character list:
every dot starts a new (possibly empty) field. -/
def splitOnDot : List Char → List (List Char)
  | [] => [[]]
  | c :: cs =>
    if c = '.' then [] :: splitOnDot cs
    else
      match splitOnDot cs with
      | [] => [[c]]
      | p :: ps => (c :: p) :: ps

/-- Models the Python call `version.split` on a dot. -/
def pySplitDot (s : String) : List String :=
  (splitOnDot s.data).map String.mk

/-- Models Python `str.strip` with no argument: drop leading and trailing
whitespace. -/
def pyStrip (s : String) : String :=
  String.mk (((s.data.dropWhile Char.isWhitespace).reverse.dropWhile Char.isWhitespace).reverse)

/-- Models Python `int(s)` on the strings fed to it by build_main.py:
an optional sign followed by one or more digits parses, anything else
raises ValueError (modelled as none). -/
def pyParseInt (s : String) : Option Int :=
  match s.data with
  | [] => none
  | '-' :: rest =>
      if !rest.isEmpty && rest.all Char.isDigit then
        some (-(natOfDigits rest : Int))
      else none
  | '+' :: rest =>
      if !rest.isEmpty && rest.all Char.isDigit then
        some ((natOfDigits rest : Int))
      else none
  | cs =>
      if cs.all Char.isDigit then some ((natOfDigits cs : Int)) else none

/-! ## CommandRunner: run_command (build_main.py lines 131-221)

The post-loop classification of a finished child process: exit code test
followed by the xcopy zero-files-copied scan (lines 191-208). -/

/-- Models run_command lines 191-208: classification of a completed command
from its command text, exit code and captured output lines.  Returns the
boolean run_command returns once the child has exited. -/
def run_command_post (cmd : String) (returnCode : Int) (outputLines : List String) : Bool :=
  if returnCode ≠ 0 then false
  else if (cmd ≠ "") && pyIn "xcopy" (pyLower cmd)
          && outputLines.any (fun line => pyIn "0 File(s) copied" line) then false
  else true

/-! ## ArtifactVerifier: verify_plugin_installation (lines 327-373) -/

/-- Filesystem metadata of one plugin artifact: modification time in seconds
and size in bytes, as read by os.path.getmtime / os.path.getsize. -/
structure FileInfo where
  mtime : Int
  size : Nat
deriving DecidableEq

/-- Models verify_plugin_installation: on Windows it compares the built and
installed artifacts (absence of either fails, an installed mtime more than
5 seconds older than the built one fails, a size mismatch fails); on every
other platform the function returns True unconditionally (lines 371-373).
A descriptor of none models a missing file. -/
def verify_plugin_installation (system : String) (built installed : Option FileInfo) : Bool :=
  if system = "windows" then
    match built with
    | none => false
    | some b =>
      match installed with
      | none => false
      | some i =>
        if i.mtime < b.mtime - 5 then false
        else if b.size ≠ i.size then false
        else true
  else true

/-! ## Version handling: test_mcp_version (lines 280-325), bump_version
(lines 443-475), regenerate_version_files (lines 477-525) -/

/-- Models the version-verification core of test_mcp_version (lines 297-312):
split the reported version on dots, parse the third component with int(),
and accept exactly when that patch component is at least 1.  A parse or
index failure is caught and yields False. -/
def versionCheck (version : String) : Bool :=
  let parts := pySplitDot version
  if 3 ≤ parts.length then
    match parts[2]? with
    | none => false
    | some s =>
      match pyParseInt s with
      | none => false
      | some patch => decide (1 ≤ patch)
  else false

/-- The patch component as test_mcp_version parses it, or none when the
parse fails: the value the accept decision is based on. -/
def parsedPatch (version : String) : Option Int :=
  let parts := pySplitDot version
  if 3 ≤ parts.length then
    match parts[2]? with
    | none => none
    | some s => pyParseInt s
  else none

/-- The search key of the regex PLUGIN_VERSION_PATCH followed by digits. -/
def patchKey : String := "PLUGIN_VERSION_PATCH "

/-- Scans a character list for `key` immediately followed by at least one
digit and returns the numeric value of the digit run: the model of
re.search on a key-then-number pattern. -/
def findKeyNatAux (key : List Char) : List Char → Option Nat
  | [] => none
  | c :: rest =>
    if startsWithList (c :: rest) key then
      let ds := leadingDigits ((c :: rest).drop key.length)
      if ds.isEmpty then findKeyNatAux key rest else some (natOfDigits ds)
    else findKeyNatAux key rest

/-- Models re.search of a pattern of the form KEY followed by digits,
returning the captured number of the first match. -/
def findKeyNat (key content : String) : Option Nat :=
  findKeyNatAux key.data content.data

/-- The characters strictly before the first double quote, or none when no
closing quote exists. -/
def takeUntilQuote : List Char → Option (List Char)
  | [] => none
  | c :: cs => if c = '"' then some [] else (takeUntilQuote cs).map (c :: ·)

/-- Scans for `key` (which ends with the opening quote) followed by a
nonempty run of non-quote characters and a closing quote, the model of
re.search on a key-then-quoted-string pattern. -/
def findKeyQuotedAux (key : List Char) : List Char → Option (List Char)
  | [] => none
  | c :: rest =>
    if startsWithList (c :: rest) key then
      match takeUntilQuote ((c :: rest).drop key.length) with
      | some s => if s.isEmpty then findKeyQuotedAux key rest else some s
      | none => findKeyQuotedAux key rest
    else findKeyQuotedAux key rest

/-- Models re.search of a pattern KEY followed by a quoted nonempty string,
returning the captured text of the first match. -/
def findKeyQuoted (key content : String) : Option String :=
  (findKeyQuotedAux key.data content.data).map String.mk

/-- One pass of re.sub replacing every occurrence of the patch pattern:
fuel-driven scan that rewrites each key-plus-digits match to `repl` and
copies everything else. -/
def subPatchAux (repl key : List Char) : Nat → List Char → List Char
  | 0, cs => cs
  | _ + 1, [] => []
  | fuel + 1, c :: rest =>
    if startsWithList (c :: rest) key
        && !(leadingDigits ((c :: rest).drop key.length)).isEmpty then
      repl ++ subPatchAux repl key fuel
        (((c :: rest).drop key.length).dropWhile Char.isDigit)
    else c :: subPatchAux repl key fuel rest

/-- Models the re.sub call of bump_version (lines 460-464): every
PLUGIN_VERSION_PATCH number in the content is replaced by the new patch. -/
def subPatchAll (newPatch : Nat) (content : String) : String :=
  String.mk (subPatchAux (patchKey.data ++ (Nat.repr newPatch).data) patchKey.data
    (content.data.length + 1) content.data)

/-- The files touched by the version stage.  `cmake` is the content of
version.cmake (none when opening it for reading raises); the two flags say
whether opening version.cmake / version.h for writing succeeds. -/
structure VersionFs where
  cmake : Option String
  writeCmakeOk : Bool
  writeHOk : Bool

/-- Models bump_version (lines 443-475).  Returns the filesystem after the
call and whether the bump fully succeeded; every failure (unreadable file,
missing patch field, failed write) is caught inside the function, only
logged, and leaves the file unchanged.  bump_version itself returns None
to its caller in the source, so the success flag is observable only here,
not by main. -/
def bump_version (fs : VersionFs) : VersionFs × Bool :=
  match fs.cmake with
  | none => (fs, false)
  | some content =>
    match findKeyNat patchKey content with
    | none => (fs, false)
    | some currentPatch =>
      if fs.writeCmakeOk then
        ({ fs with cmake := some (subPatchAll (currentPatch + 1) content) }, true)
      else (fs, false)

/-- Models regenerate_version_files (lines 477-525): reads version.cmake,
requires all five version components to match, writes version.h, and
returns False on any failure. -/
def regenerate_version_files (fs : VersionFs) : VersionFs × Bool :=
  match fs.cmake with
  | none => (fs, false)
  | some content =>
    match findKeyNat "PLUGIN_VERSION_MAJOR " content,
          findKeyNat "PLUGIN_VERSION_MINOR " content,
          findKeyNat patchKey content,
          findKeyQuoted "PLUGIN_NAME_VERSIONED \"" content,
          findKeyQuoted "PLUGIN_JSON_FILE \"" content with
    | some _, some _, some _, some _, some _ =>
        if fs.writeHOk then (fs, true) else (fs, false)
    | _, _, _, _, _ => (fs, false)

/-- Models main lines 1014-1022 (steps 3 and 3b): bump_version is called
with its result unchecked, then the pipeline aborts (sys.exit before any
configure or build step) exactly when regenerate_version_files fails.
The boolean is true when the pipeline aborts. -/
def versionStage (fs : VersionFs) : VersionFs × Bool :=
  let afterBump := (bump_version fs).1
  let regen := regenerate_version_files afterBump
  (regen.1, !regen.2)

/-! ## RPC timeout table: get_mcp_timeout_for_function (lines 527-561) -/

/-- One entry of the mcp.json tools array: tool.get of name and timeout,
each possibly absent. -/
structure Tool where
  name : Option String
  timeoutStr : Option String
deriving DecidableEq

/-- Models the if/elif chain mapping a schema timeout string to seconds
(lines 537-547). -/
def timeoutFromStr (s : String) : Nat :=
  if s = "default" then 5
  else if s = "1 minute" then 60
  else if s = "2 minutes" then 120
  else if s = "20 minutes" then 1200
  else 5

/-- First tool whose name equals the requested function, as the for loop
of lines 535-536 finds it. -/
def findToolEntry (fn : String) : List Tool → Option Tool
  | [] => none
  | t :: ts => if t.name = some fn then some t else findToolEntry fn ts

/-- Models the hardcoded fallback dict of lines 552-559. -/
def fallbackLookup (fn : String) : Option Nat :=
  if fn = "build" then some 1200
  else if fn = "debug" then some 60
  else if fn = "loadSession" then some 120
  else if fn = "get_plugin_version" then some 1
  else if fn = "initialize" then some 1
  else if fn = "quit" then some 1
  else none

/-- Models line 561: timeout_map.get with the 5-second default. -/
def fallbackTimeout (fn : String) : Nat :=
  (fallbackLookup fn).getD 5

/-- The schema scan of the for loop (lines 535-547): the first matching
tool determines the timeout via its timeout string (missing timeout field
defaults to the string default); no match yields none and control falls
through to the fallback table. -/
def schemaScan (fn : String) : List Tool → Option Nat
  | [] => none
  | t :: ts =>
    if t.name = some fn then some (timeoutFromStr (t.timeoutStr.getD "default"))
    else schemaScan fn ts

/-- Models get_mcp_timeout_for_function.  The schema argument is the parsed
tools list of mcp.json, or none when reading or parsing the file raises
(the except branch of lines 548-549). -/
def get_mcp_timeout_for_function (schema : Option (List Tool)) (fn : String) : Nat :=
  match schema with
  | some tools =>
    match schemaScan fn tools with
    | some v => v
    | none => fallbackTimeout fn
  | none => fallbackTimeout fn

/-! ## Socket RPC exchange: send_mcp_command_socket (lines 563-590) -/

/-- Outcome of one socket primitive: normal completion, socket.timeout, or
any other exception. -/
inductive PyEv
  | ok
  | timeoutEv
  | err
deriving DecidableEq

/-- Whether the primitive completed without raising. -/
def PyEv.isOk : PyEv → Bool
  | .ok => true
  | _ => false

/-- The externally observable behaviour of the three socket primitives the
exchange performs, in program order, plus the bytes recv returns when it
succeeds. -/
structure SockEnv where
  connectEv : PyEv
  sendEv : PyEv
  recvEv : PyEv
  recvData : String

/-- Models send_mcp_command_socket: connect, send, recv and close in
sequence inside a try block whose handlers return the empty string.  The
second component records whether sock.close() ran before the function
returned: the source closes only on the fully successful path (line 581)
and its exception handlers (lines 585-590) return without closing. -/
def send_mcp_command_socket (env : SockEnv) : String × Bool :=
  match env.connectEv with
  | .ok =>
    match env.sendEv with
    | .ok =>
      match env.recvEv with
      | .ok => (pyStrip env.recvData, true)
      | _ => ("", false)
    | _ => ("", false)
  | _ => ("", false)

/-! ## Build-status polling: poll_build_status (lines 592-637) -/

/-- One polled response as the loop body classifies it: no (or falsy)
response, JSON that fails to parse, JSON without a truthy result field, or
a status text carried in the result field. -/
inductive PollResp
  | noResponse
  | badJson
  | noResult
  | result (s : String)

/-- What one status text means to the loop body. -/
inductive BuildStatus
  | complete
  | inProgress (pct : Nat)
  | other
deriving DecidableEq

/-- Scans for the literal Building-colon-space key followed by digits and a
percent sign, the model of re.search on the progress pattern (line 613). -/
def findBuildingPctAux (key : List Char) : List Char → Option Nat
  | [] => none
  | c :: rest =>
    if startsWithList (c :: rest) key then
      let after := (c :: rest).drop key.length
      let ds := leadingDigits after
      if !ds.isEmpty && (after.drop ds.length).head? = some '%' then
        some (natOfDigits ds)
      else findBuildingPctAux key rest
    else findBuildingPctAux key rest

/-- The progress percentage re.search extracts from a status text. -/
def findBuildingPct (statusText : String) : Option Nat :=
  findBuildingPctAux ("Building: ").data statusText.data

/-- Models the status interpretation of lines 610-625: a Building-progress
text completes only at 100 percent, the idle marker completes, and any
other text (including an unparsable progress line) keeps polling. -/
def interpretStatus (statusText : String) : BuildStatus :=
  if pyIn "Building:" statusText && pyIn "%" statusText then
    match findBuildingPct statusText with
    | some p => if p = 100 then .complete else .inProgress p
    | none => .other
  else if pyIn "Status: Not building" statusText then .complete
  else .other

/-- Whether one polled response makes the loop return True. -/
def stepComplete : PollResp → Bool
  | .result s => decide (interpretStatus s = .complete)
  | _ => false

/-- Models poll_build_status.  `resp i` is the response of iteration i; the
fuel counts the iterations the wall-clock budget allows (the loop sleeps a
fixed 2 seconds per iteration), and exhausting it is the line 636-637 path
returning False. -/
def poll_build_status (resp : Nat → PollResp) : Nat → Nat → Bool
  | 0, _ => false
  | fuel + 1, i =>
    if stepComplete (resp i) then true
    else poll_build_status resp fuel (i + 1)

/-! ## Process lifecycle: quit_qt_creator_gracefully (lines 656-683) and
kill_qt_creator (lines 685-757)

run_command always returns a Bool, so the source test of the form result
and SUCCESS-in-str(result) compares against str(True) or str(False); the
attribute access result.returncode on a Bool raises AttributeError.  Both
are modelled exactly. -/

/-- The Python exception kinds this embedding distinguishes. -/
inductive PyErr
  | attributeError
deriving DecidableEq

/-- Models Python str on a Bool. -/
def pyStr (b : Bool) : String := if b then "True" else "False"

/-- Models the source test of a termination command result: the Python
expression result and SUCCESS-substring-of-str(result). -/
def successTextCheck (result : Bool) : Bool :=
  result && pyIn "SUCCESS" (pyStr result)

/-- Oracle environment of kill_qt_creator: the platform flag, the
successive run_command results and the successive is_process_running
results, each consumed in program order. -/
structure KillEnv where
  win : Bool
  cmd : Nat → Bool
  running : Nat → Bool

/-- One step of the kill loop: either a return (with the value of the most
recent liveness check) or continuation with advanced oracle counters. -/
inductive KStep
  | done (r : Except PyErr Bool) (lastLive : Option Bool)
  | next (c r : Nat) (lastLive : Option Bool)

/-- Models one iteration of the while loop of kill_qt_creator (lines
692-754): method 1 and its dead SUCCESS-text test, the liveness check that
alone can report success, then the Windows taskkill escalation (methods
2-4 with their liveness guards) or the Unix pkill and killall attempts
whose result.returncode test raises AttributeError whenever run_command
returned True.  `c` and `r` index the next unread command and liveness
oracle values; the last component tracks the most recent liveness value. -/
def killIter (env : KillEnv) (c r : Nat) (lastLive : Option Bool) : KStep :=
  let res1 := env.cmd c
  if successTextCheck res1 then .done (.ok true) lastLive
  else
    let live1 := env.running r
    if live1 = false then .done (.ok true) (some live1)
    else if env.win then
      let res2 := env.cmd (c + 1)
      if successTextCheck res2 then .done (.ok true) (some live1)
      else
        let live3 := env.running (r + 1)
        if live3 then
          let res3 := env.cmd (c + 2)
          if successTextCheck res3 then .done (.ok true) (some live3)
          else
            let live4 := env.running (r + 2)
            if live4 then
              let res4 := env.cmd (c + 3)
              if successTextCheck res4 then .done (.ok true) (some live4)
              else .next (c + 4) (r + 3) (some live4)
            else .next (c + 3) (r + 3) (some live4)
        else
          let live4 := env.running (r + 2)
          if live4 then
            let res4 := env.cmd (c + 2)
            if successTextCheck res4 then .done (.ok true) (some live4)
            else .next (c + 3) (r + 3) (some live4)
          else .next (c + 2) (r + 3) (some live4)
    else
      let res2 := env.cmd (c + 1)
      if res2 then .done (.error .attributeError) (some live1)
      else
        let live2 := env.running (r + 1)
        if live2 then
          let res3 := env.cmd (c + 2)
          if res3 then .done (.error .attributeError) (some live2)
          else .next (c + 3) (r + 2) (some live2)
        else .next (c + 2) (r + 2) (some live2)

/-- The while loop of kill_qt_creator driven by fuel: exhausted fuel is the
time-budget path returning False (lines 748-757). -/
def killLoop (env : KillEnv) : Nat → Nat → Nat → Option Bool →
    Except PyErr Bool × Option Bool
  | 0, _, _, lastLive => (.ok false, lastLive)
  | fuel + 1, c, r, lastLive =>
    match killIter env c r lastLive with
    | .done res l => (res, l)
    | .next c2 r2 l => killLoop env fuel c2 r2 l

/-- Models kill_qt_creator: the loop from fresh oracle counters, paired
with the most recent process-liveness observation at return time. -/
def kill_qt_creator (env : KillEnv) (fuel : Nat) : Except PyErr Bool × Option Bool :=
  killLoop env fuel 0 0 none

/-- Oracle environment of quit_qt_creator_gracefully: whether the
connection probe succeeds and the successive liveness checks of the wait
loop. -/
structure QuitEnv where
  mcpUp : Bool
  running : Nat → Bool

/-- The ten-iteration wait loop of lines 672-677: returns True at the
first liveness check reporting not running, False after ten checks. -/
def quitWait (env : QuitEnv) : Nat → Nat → Option Bool → Bool × Option Bool
  | 0, _, lastLive => (false, lastLive)
  | n + 1, i, _ =>
    let live := env.running i
    if live then quitWait env n (i + 1) (some live)
    else (true, some live)

/-- Models quit_qt_creator_gracefully: when the connection probe fails the
function returns False at once; otherwise the quit command is sent (its
response is only printed) and the wait loop decides the result. -/
def quit_qt_creator_gracefully (env : QuitEnv) : Bool × Option Bool :=
  if env.mcpUp then quitWait env 10 0 none else (false, none)

/-! ## CommandRunner streaming loop: run_command (lines 143-191)

The loop polls the child, checks the elapsed time against the timeout, and
then calls readline on the child pipe.  readline on a pipe of a live child
with no pending output blocks; the model makes that blocking outcome
explicit. -/

/-- What one readline call on the child pipe does at a given instant. -/
inductive ReadEv
  | blocks
  | line (s : String)

/-- Observable behaviour of a child process per loop tick: poll result
(exit code once exited) and pipe behaviour. -/
structure Child where
  poll : Nat → Option Int
  readline : Nat → ReadEv

/-- How the streaming loop of run_command ends. -/
inductive RunOutcome
  | exited (code : Int)
  | timedOutFalse
  | blocked
  | fuelOut
deriving DecidableEq

/-- Models the while loop of lines 157-181 at tick granularity: while the
child has not exited, first the elapsed-greater-than-timeout test (which
returns False), then readline, which either yields a line (the loop
continues) or blocks forever on a silent live child (the loop never
reaches another timeout test).  Exiting the loop hands the exit code to
the post-loop classification. -/
def run_command_loop (child : Child) (timeoutSec : Nat) : Nat → Nat → RunOutcome
  | 0, _ => .fuelOut
  | fuel + 1, t =>
    match child.poll t with
    | some code => .exited code
    | none =>
      if timeoutSec < t then .timedOutFalse
      else
        match child.readline t with
        | .blocks => .blocked
        | .line _ => run_command_loop child timeoutSec fuel (t + 1)

/-- A child that never exits and never writes: poll always reports running
and readline always blocks. -/
def silentHungChild : Child where
  poll := fun _ => none
  readline := fun _ => .blocks

/-- A child that never exits but emits a line every tick, so readline
always returns promptly. -/
def chattyHungChild : Child where
  poll := fun _ => none
  readline := fun _ => .line "still alive"

/-! ## Concrete fixtures used by witnesses and counterexamples -/

/-- A version.cmake content carrying all five components the scripts
extract, at version 1.31.4. -/
def sampleCmake : String :=
  "set(PLUGIN_VERSION_MAJOR 1)\nset(PLUGIN_VERSION_MINOR 31)\nset(PLUGIN_VERSION_PATCH 4)\nset(PLUGIN_NAME_VERSIONED \"Qt MCP Plugin\")\nset(PLUGIN_JSON_FILE \"Qt_MCP_Plugin.json\")\n"

/-- A response stream whose first poll reports 57 percent and whose later
polls report completion. -/
def respW : Nat → PollResp :=
  fun n => if n = 0 then .result "Building: 57%" else .result "Building: 100%"

/-- A response stream that never answers. -/
def respN : Nat → PollResp := fun _ => .noResponse

/-- A Unix environment whose pkill invocation reports success while the
target stays alive. -/
def killEnvUnix : KillEnv := ⟨false, fun n => n == 1, fun _ => true⟩

/-- An environment where every command reports failure and the very first
liveness check already finds the target gone. -/
def killEnvStopped : KillEnv := ⟨true, fun _ => false, fun _ => false⟩

/-! ## Helper lemmas -/

/-- The source test result-and-SUCCESS-in-str(result) is identically false:
str of a Bool is the text True or False, neither containing SUCCESS. -/
theorem successTextCheck_false (b : Bool) : successTextCheck b = false := by
  cases b <;> decide

/-- If one kill iteration returns True, the liveness value it carries is
the not-running observation of the check that produced the return. -/
theorem killIter_ok_true (env : KillEnv) (c r : Nat) (lastLive l : Option Bool)
    (h : killIter env c r lastLive = .done (.ok true) l) : l = some false := by
  unfold killIter at h
  simp only [successTextCheck_false, Bool.false_eq_true, if_false] at h
  cases h1 : env.running r <;> cases hw : env.win <;> cases h2 : env.cmd (c + 1) <;>
    cases h3 : env.running (r + 1) <;> cases h4 : env.cmd (c + 2) <;>
    cases h5 : env.cmd (c + 3) <;> cases h6 : env.running (r + 2) <;>
    simp_all

/-- Loop invariant of kill_qt_creator: a True return is always paired with
a not-running liveness observation. -/
theorem killLoop_ok_true (env : KillEnv) : ∀ (fuel c r : Nat) (lastLive : Option Bool),
    (killLoop env fuel c r lastLive).1 = .ok true →
    (killLoop env fuel c r lastLive).2 = some false := by
  intro fuel
  induction fuel with
  | zero => intro c r lastLive h; simp [killLoop] at h
  | succ n ih =>
    intro c r lastLive h
    rw [killLoop] at h ⊢
    cases hit : killIter env c r lastLive with
    | done res lv =>
      rw [hit] at h
      have hres : res = .ok true := h
      rw [hres] at hit
      exact killIter_ok_true env c r lastLive lv hit
    | next c2 r2 lv =>
      rw [hit] at h
      exact ih c2 r2 lv h

/-- Loop invariant of the graceful-quit wait loop: a True return is paired
with a not-running liveness observation. -/
theorem quitWait_true (env : QuitEnv) : ∀ (n i : Nat) (lastLive : Option Bool),
    (quitWait env n i lastLive).1 = true → (quitWait env n i lastLive).2 = some false := by
  intro n
  induction n with
  | zero => intro i lastLive h; simp [quitWait] at h
  | succ m ih =>
    intro i lastLive h
    rw [quitWait] at h ⊢
    cases hl : env.running i
    · simp
    · rw [hl] at h
      simp only [if_pos] at h ⊢
      exact ih (i + 1) (some true) h

/-- schemaScan is the image of the first-matching-tool lookup. -/
theorem schemaScan_eq_findToolEntry (fn : String) : ∀ tools : List Tool,
    schemaScan fn tools
      = (findToolEntry fn tools).map (fun t => timeoutFromStr (t.timeoutStr.getD "default")) := by
  intro tools
  induction tools with
  | nil => rfl
  | cons t ts ih =>
    rw [schemaScan, findToolEntry]
    split
    · rfl
    · simpa using ih

/-- An empty command string cannot contain the xcopy marker. -/
theorem pyIn_xcopy_empty : pyIn "xcopy" (pyLower "") = false := by decide

set_option maxRecDepth 8000

/-! ## Claim theorems -/

/-- Claim C1: whenever kill_qt_creator or quit_qt_creator_gracefully
returns success, the most recent process-liveness check before that return
observed the target as not running; in particular no True return is
produced from a termination command's own reported status (those branches
are provably unreachable, since str of a Bool never contains SUCCESS, and
the Unix returncode branches raise instead of returning). -/
theorem claim_C1 :
    (∀ (env : KillEnv) (fuel : Nat), (kill_qt_creator env fuel).1 = .ok true →
        (kill_qt_creator env fuel).2 = some false)
    ∧ (∀ env : QuitEnv, (quit_qt_creator_gracefully env).1 = true →
        (quit_qt_creator_gracefully env).2 = some false) := by
  constructor
  · intro env fuel h
    exact killLoop_ok_true env fuel 0 0 none h
  · intro env h
    unfold quit_qt_creator_gracefully at h ⊢
    cases hup : env.mcpUp
    · rw [hup] at h
      simp at h
    · rw [hup] at h
      simp only [if_pos] at h ⊢
      exact quitWait_true env 10 0 none h

/-- Claim C1 witness: a run where the first liveness check already reports
the target stopped returns True with that not-running observation, for
both routines. -/
theorem claim_C1_witness :
    (kill_qt_creator killEnvStopped 1).2 = some false
    ∧ (quit_qt_creator_gracefully ⟨true, fun _ => false⟩).2 = some false :=
  ⟨claim_C1.1 killEnvStopped 1 rfl, claim_C1.2 ⟨true, fun _ => false⟩ rfl⟩

/-- Claim C2 counterexample: a copy command that is not an xcopy invocation
exits 0 with the zero-files marker in its output, and run_command still
returns True — the marker scan is applied only to xcopy commands, so the
claim as stated over every command is false. -/
theorem claim_C2_counterexample :
    (["0 File(s) copied"].any (fun line => pyIn "0 File(s) copied" line) = true)
    ∧ run_command_post "cp plugin.dylib dest" 0 ["0 File(s) copied"] = true := by
  decide

/-- Claim C2 amended: for every command whose command text contains xcopy
(case-insensitively) and whose captured output contains a line with the
zero-item copy marker, run_command returns failure regardless of the exit
code. -/
theorem claim_C2_amended : ∀ (cmd : String) (returnCode : Int) (outputLines : List String),
    pyIn "xcopy" (pyLower cmd) = true →
    outputLines.any (fun line => pyIn "0 File(s) copied" line) = true →
    run_command_post cmd returnCode outputLines = false := by
  intro cmd returnCode outputLines hx hl
  unfold run_command_post
  by_cases hrc : returnCode ≠ 0
  · rw [if_pos hrc]
  · rw [if_neg hrc]
    by_cases hc : cmd = ""
    · rw [hc] at hx
      exact absurd hx (by decide)
    · simp [hc, hx, hl]

/-- Claim C2 witness: the amended claim at a concrete xcopy command with
exit code 0 and the zero-files marker in its output. -/
theorem claim_C2_witness :
    run_command_post "xcopy plugin.dll dest /Y" 0 ["0 File(s) copied"] = false :=
  claim_C2_amended "xcopy plugin.dll dest /Y" 0 ["0 File(s) copied"] (by decide) (by decide)

/-- Claim C3 counterexample: on a non-Windows platform the verifier
returns True for descriptors whose sizes differ (here 10485760 against 0
bytes, identical timestamps), so the claim as stated over every descriptor
pair is false. -/
theorem claim_C3_counterexample :
    ((10485760 : Nat) ≠ 0)
    ∧ verify_plugin_installation "darwin" (some ⟨1000, 10485760⟩) (some ⟨1000, 0⟩) = true := by
  decide

/-- Claim C3 amended: on Windows, verify_plugin_installation is false
whenever the two byte sizes differ even with timestamps in tolerance, and
true exactly when the sizes are equal and the installed artifact is not
more than 5 seconds older than the built one; on any other platform the
function returns True unconditionally. -/
theorem claim_C3_amended : ∀ (b i : FileInfo) (sys : String),
    (b.size ≠ i.size → verify_plugin_installation "windows" (some b) (some i) = false)
    ∧ (verify_plugin_installation "windows" (some b) (some i) = true ↔
        (b.mtime - 5 ≤ i.mtime ∧ b.size = i.size))
    ∧ (sys ≠ "windows" → verify_plugin_installation sys (some b) (some i) = true) := by
  intro b i sys
  refine ⟨?_, ?_, ?_⟩
  · intro hs
    by_cases hm : i.mtime < b.mtime - 5 <;> simp [verify_plugin_installation, hm, hs]
  · by_cases hm : i.mtime < b.mtime - 5
    · simp only [verify_plugin_installation, if_pos rfl, if_pos hm]
      constructor
      · intro h
        exact absurd h (by simp)
      · intro h
        omega
    · by_cases hs : b.size = i.size
      · simp [verify_plugin_installation, hm, hs]
        omega
      · simp [verify_plugin_installation, hm, hs]
  · intro hsys
    simp [verify_plugin_installation, hsys]

/-- Claim C3 witness: the amended claim at concrete Windows descriptor
pairs (equal sizes with a 2-second delta passes; differing sizes fail) and
at a darwin pair. -/
theorem claim_C3_witness :
    verify_plugin_installation "windows" (some ⟨1000, 10485760⟩) (some ⟨998, 10485760⟩) = true
    ∧ verify_plugin_installation "windows" (some ⟨0, 5⟩) (some ⟨0, 6⟩) = false
    ∧ verify_plugin_installation "darwin" (some ⟨0, 5⟩) (some ⟨0, 6⟩) = true :=
  ⟨(claim_C3_amended ⟨1000, 10485760⟩ ⟨998, 10485760⟩ "windows").2.1.mpr (by decide),
   (claim_C3_amended ⟨0, 5⟩ ⟨0, 6⟩ "windows").1 (by decide),
   (claim_C3_amended ⟨0, 5⟩ ⟨0, 6⟩ "darwin").2.2 (by decide)⟩

/-- Claim C4 counterexample: bumping the sample version file takes the
patch from 4 to 5, yet a server reporting 1.31.3 — patch 3, strictly below
the just-bumped 5 — still passes the verification, because the check is
the hardcoded threshold patch-at-least-1, not a comparison with the bumped
version. -/
theorem claim_C4_counterexample :
    findKeyNat patchKey (((bump_version ⟨some sampleCmake, true, true⟩).1).cmake.getD "") = some 5
    ∧ parsedPatch "1.31.3" = some 3
    ∧ (3 : Nat) < 5
    ∧ versionCheck "1.31.3" = true := by
  decide

/-- Claim C4 amended: the functional-verification stage parses the
reported version into dot-separated numeric components and passes exactly
when the patch component is at least 1 — a fixed threshold independent of
the version the pipeline just bumped (so 1.31.3 passes and 1.31.0 fails,
but a stale version above patch 0 is not detected). -/
theorem claim_C4_amended : ∀ (version : String) (p : Int),
    parsedPatch version = some p → (versionCheck version = true ↔ 1 ≤ p) := by
  intro version p h
  unfold parsedPatch at h
  unfold versionCheck
  by_cases hl : 3 ≤ (pySplitDot version).length
  · rw [if_pos hl] at h ⊢
    cases hq : (pySplitDot version)[2]? with
    | none => rw [hq] at h; exact absurd h (by simp)
    | some s =>
      rw [hq] at h
      have h2 : pyParseInt s = some p := h
      show (match pyParseInt s with
            | none => false
            | some patch => decide (1 ≤ patch)) = true ↔ 1 ≤ p
      rw [h2]
      simp
  · rw [if_neg hl] at h
    exact absurd h (by simp)

/-- Claim C4 witness: the amended claim at the spec's two examples. -/
theorem claim_C4_witness :
    versionCheck "1.31.3" = true ∧ versionCheck "1.31.0" = false := by
  constructor
  · exact (claim_C4_amended "1.31.3" 3 (by decide)).mpr (by decide)
  · cases hv : versionCheck "1.31.0" with
    | false => rfl
    | true => exact absurd ((claim_C4_amended "1.31.0" 0 (by decide)).mp hv) (by decide)

/-- Claim C5: with a child that stays alive and writes nothing, the
streaming loop of run_command reaches the blocking readline on its first
iteration — before any timeout can have elapsed — and never returns at
all, so no failure result is produced within the timeout; by contrast a
hung child that keeps emitting output does hit the timeout path.  This
evidences the code bug: run_command's documented timeout handling cannot
fire on a silently hung child. -/
theorem claim_C5_bug :
    (∀ (timeoutSec fuel : Nat),
        run_command_loop silentHungChild timeoutSec (fuel + 1) 0 = .blocked)
    ∧ run_command_loop chattyHungChild 3 10 0 = .timedOutFalse := by
  constructor
  · intro timeoutSec fuel
    simp [run_command_loop, silentHungChild]
  · decide

/-- Claim C6 counterexample: a version file that parses but cannot be
written back makes bump_version fail, yet the pipeline does not abort —
bump_version's failure is swallowed and regeneration (which only reads)
succeeds, so the run proceeds to the configure and build steps. -/
theorem claim_C6_counterexample :
    (bump_version ⟨some sampleCmake, false, true⟩).2 = false
    ∧ (versionStage ⟨some sampleCmake, false, true⟩).2 = false := by
  decide

/-- Claim C6 amended: the pipeline aborts before configuration exactly
when regenerate_version_files fails after the unchecked bump; an
unreadable version file or an unparsable patch field does abort (they also
fail regeneration), but a failed write of the bumped version file alone is
only logged and does not abort. -/
theorem claim_C6_amended : ∀ fs : VersionFs,
    (fs.cmake = none → (versionStage fs).2 = true)
    ∧ (∀ content, fs.cmake = some content → findKeyNat patchKey content = none →
        (versionStage fs).2 = true)
    ∧ ((versionStage fs).2 = false →
        (regenerate_version_files (bump_version fs).1).2 = true) := by
  intro fs
  refine ⟨?_, ?_, ?_⟩
  · intro h
    simp [versionStage, bump_version, regenerate_version_files, h]
  · intro content hc hp
    have hb : (bump_version fs).1 = fs := by
      simp [bump_version, hc, hp]
    simp only [versionStage, hb]
    cases hM : findKeyNat "PLUGIN_VERSION_MAJOR " content <;>
      cases hm : findKeyNat "PLUGIN_VERSION_MINOR " content <;>
      simp [regenerate_version_files, hc, hp, hM, hm]
  · intro h
    simp only [versionStage] at h
    simpa using h

/-- Claim C6 witness: the amended claim at an unreadable version file,
which does abort the stage. -/
theorem claim_C6_witness : (versionStage ⟨none, true, true⟩).2 = true :=
  (claim_C6_amended ⟨none, true, true⟩).1 rfl

/-- Claim C7: the polling loop returns True on a response whose body is
the 100-percent progress text or the idle-status text, keeps polling on a
57-percent progress body, and returns False (rather than hanging) once the
polling budget is exhausted without any completion status. -/
theorem claim_C7 : ∀ (resp : Nat → PollResp) (fuel i : Nat),
    (resp i = .result "Building: 100%" → poll_build_status resp (fuel + 1) i = true)
    ∧ (resp i = .result "Status: Not building" → poll_build_status resp (fuel + 1) i = true)
    ∧ (resp i = .result "Building: 57%" →
        poll_build_status resp (fuel + 1) i = poll_build_status resp fuel (i + 1))
    ∧ ((∀ j, stepComplete (resp j) = false) → poll_build_status resp fuel i = false) := by
  intro resp fuel i
  refine ⟨?_, ?_, ?_, ?_⟩
  · intro h
    rw [poll_build_status, h]
    rw [if_pos (by decide)]
  · intro h
    rw [poll_build_status, h]
    rw [if_pos (by decide)]
  · intro h
    rw [poll_build_status, h]
    rw [if_neg (by decide)]
  · intro hall
    induction fuel generalizing i with
    | zero => rfl
    | succ n ih =>
      rw [poll_build_status, hall i]
      simp only [Bool.false_eq_true, if_false]
      exact ih (i + 1)

/-- Claim C7 witness: the claim applied to a stream that completes on its
second poll and to a stream that never responds. -/
theorem claim_C7_witness :
    poll_build_status respW 1 1 = true ∧ poll_build_status respN 3 0 = false :=
  ⟨(claim_C7 respW 0 1).1 rfl, (claim_C7 respN 3 0).2.2.2 (fun _ => rfl)⟩

/-- Claim C8 counterexample: when recv raises socket.timeout the exchange
returns the empty string without the socket having been closed, so the
claim that every path closes the socket is false. -/
theorem claim_C8_counterexample :
    (send_mcp_command_socket ⟨.ok, .ok, .timeoutEv, ""⟩).2 = false := by
  decide

/-- Claim C8 amended: the client socket is closed before returning exactly
on the fully successful exchange path — connect, send and recv all
complete; on a timeout or any other error the handler returns the empty
string and the socket is left unclosed. -/
theorem claim_C8_amended : ∀ env : SockEnv,
    (send_mcp_command_socket env).2
      = (env.connectEv.isOk && env.sendEv.isOk && env.recvEv.isOk) := by
  intro env
  obtain ⟨ce, se, re, rd⟩ := env
  cases ce <;> cases se <;> cases re <;> rfl

/-- Claim C9: when the schema file is readable and lists the method, the
timeout comes from that schema entry (first match, schema wins even when
the fallback table disagrees — build maps to 5 via a schema default entry
though the fallback table says 1200); the hardcoded table is consulted
exactly when the schema is unreadable or lists no such method; a method in
neither table gets the 5-second default. -/
theorem claim_C9 :
    (∀ (tools : List Tool) (fn : String) (t : Tool), findToolEntry fn tools = some t →
        get_mcp_timeout_for_function (some tools) fn
          = timeoutFromStr (t.timeoutStr.getD "default"))
    ∧ (∀ (tools : List Tool) (fn : String), findToolEntry fn tools = none →
        get_mcp_timeout_for_function (some tools) fn = fallbackTimeout fn)
    ∧ (∀ fn : String, get_mcp_timeout_for_function none fn = fallbackTimeout fn)
    ∧ (∀ fn : String, fallbackLookup fn = none → fallbackTimeout fn = 5)
    ∧ get_mcp_timeout_for_function (some [⟨some "build", some "default"⟩]) "build" = 5
    ∧ fallbackTimeout "build" = 1200 := by
  refine ⟨?_, ?_, ?_, ?_, ?_, ?_⟩
  · intro tools fn t h
    simp [get_mcp_timeout_for_function, schemaScan_eq_findToolEntry, h]
  · intro tools fn h
    simp [get_mcp_timeout_for_function, schemaScan_eq_findToolEntry, h]
  · intro fn
    rfl
  · intro fn h
    simp [fallbackTimeout, h]
  · decide
  · decide

/-- Claim C9 witness: the claim applied at a schema entry, at a
schema-miss falling back to the table, and at a method in neither table. -/
theorem claim_C9_witness :
    get_mcp_timeout_for_function (some [⟨some "loadSession", some "2 minutes"⟩]) "loadSession" = 120
    ∧ get_mcp_timeout_for_function (some [⟨some "build", some "20 minutes"⟩]) "quit" = 1
    ∧ fallbackTimeout "someUnknownMethod" = 5 :=
  ⟨(claim_C9.1 [⟨some "loadSession", some "2 minutes"⟩] "loadSession"
      ⟨some "loadSession", some "2 minutes"⟩ (by decide)).trans (by decide),
   (claim_C9.2.1 [⟨some "build", some "20 minutes"⟩] "quit" (by decide)).trans (by decide),
   claim_C9.2.2.2.1 "someUnknownMethod" (by decide)⟩

/-- Claim C10: on a non-Windows platform, whenever the pkill invocation of
run_command reports True (and likewise when pkill reports False, the
target is still alive and the killall invocation reports True), the
attribute access returncode on that Bool raises AttributeError, which
escapes kill_qt_creator instead of a boolean return. -/
theorem claim_C10 : ∀ (env : KillEnv) (fuel : Nat),
    env.win = false → env.running 0 = true →
    ((env.cmd 1 = true → (kill_qt_creator env (fuel + 1)).1 = .error .attributeError)
     ∧ (env.cmd 1 = false → env.running 1 = true → env.cmd 2 = true →
         (kill_qt_creator env (fuel + 1)).1 = .error .attributeError)) := by
  intro env fuel hwin hrun
  constructor
  · intro h1
    rw [kill_qt_creator, killLoop]
    unfold killIter
    simp [successTextCheck_false, hwin, hrun, h1]
  · intro h1 h2 h3
    rw [kill_qt_creator, killLoop]
    unfold killIter
    simp [successTextCheck_false, hwin, hrun, h1, h2, h3]

/-- Claim C10 witness: a Unix environment whose pkill reports success
while the target is alive makes kill_qt_creator raise AttributeError. -/
theorem claim_C10_witness :
    (kill_qt_creator killEnvUnix 1).1 = .error .attributeError :=
  (claim_C10 killEnvUnix 0 rfl rfl).1 rfl

end BuildMain
